import Mathlib

/-!
Verification of the x402-donate donation API route (`/api/donate/$recipient/$network`)
against its specification.  The route file is embedded shallowly: the JSON values the
handlers build, the base64 header blobs, the query-string parsing, the network
configuration table, and the verify/settle orchestration (with the facilitator as an
explicit test double whose outcomes are parameters, and a trace recording every
facilitator call made together with the request headers used).
-/

/-- JSON values as constructed and serialized by the route handlers.
Numeric literals are modelled by integers: every number the route itself
constructs is an integer, and client-supplied payload JSON is opaque to the
route (passed through to the facilitator, never inspected). -/
inductive Json where
  | null : Json
  | bool (b : Bool) : Json
  | num (n : Int) : Json
  | str (s : String) : Json
  | arr (xs : List Json) : Json
  | obj (fields : List (String × Json)) : Json

/-- Hexadecimal digit for code points, used in JSON string escapes. -/
def hexDigit (n : Nat) : Char :=
  if n < 10 then Char.ofNat (48 + n) else Char.ofNat (87 + n)

/-- JSON.stringify escaping of a single character (quote, backslash, control chars). -/
def jsonEscapeChar (c : Char) : List Char :=
  if c = '"' then ['\\', '"']
  else if c = '\\' then ['\\', '\\']
  else if c = '\x08' then ['\\', 'b']
  else if c = '\x0c' then ['\\', 'f']
  else if c = '\n' then ['\\', 'n']
  else if c = '\x0d' then ['\\', 'r']
  else if c = '\t' then ['\\', 't']
  else if c.toNat < 32 then
    ['\\', 'u', '0', '0', hexDigit (c.toNat / 16), hexDigit (c.toNat % 16)]
  else [c]

/-- JSON.stringify escaping of a string body. -/
def jsonEscape (s : String) : String :=
  String.mk (s.data.foldr (fun c acc => jsonEscapeChar c ++ acc) [])

mutual

/-- JSON.stringify (no spacing, object keys in insertion order). -/
def jsonStringify : Json → String
  | Json.null => "null"
  | Json.bool true => "true"
  | Json.bool false => "false"
  | Json.num n => toString n
  | Json.str s => "\"" ++ jsonEscape s ++ "\""
  | Json.arr xs => "[" ++ jsonStringifyList xs ++ "]"
  | Json.obj fs => "\x7b" ++ jsonStringifyFields fs ++ "\x7d"

/-- Comma-separated serialization of array elements. -/
def jsonStringifyList : List Json → String
  | [] => ""
  | [x] => jsonStringify x
  | x :: y :: rest => jsonStringify x ++ "," ++ jsonStringifyList (y :: rest)

/-- Comma-separated serialization of object members. -/
def jsonStringifyFields : List (String × Json) → String
  | [] => ""
  | [(k, v)] => "\"" ++ jsonEscape k ++ "\":" ++ jsonStringify v
  | (k, v) :: m :: rest =>
      "\"" ++ jsonEscape k ++ "\":" ++ jsonStringify v ++ "," ++
        jsonStringifyFields (m :: rest)

end

/-- The base64 alphabet used by btoa/atob. -/
def b64Alphabet : List Char :=
  "ABCDEFGHIJKLMNOPQRSTUVWXYZabcdefghijklmnopqrstuvwxyz0123456789+/".data

/-- Character for a 6-bit value. -/
def b64Char (n : Nat) : Char := b64Alphabet.getD n 'A'

/-- Encode a byte sequence in base64 with padding. -/
def b64EncodeBytes : List Nat → List Char
  | [] => []
  | [b1] =>
      [b64Char (b1 / 4), b64Char (b1 % 4 * 16), '=', '=']
  | [b1, b2] =>
      [b64Char (b1 / 4), b64Char (b1 % 4 * 16 + b2 / 16), b64Char (b2 % 16 * 4), '=']
  | b1 :: b2 :: b3 :: rest =>
      b64Char (b1 / 4) :: b64Char (b1 % 4 * 16 + b2 / 16) ::
        b64Char (b2 % 16 * 4 + b3 / 64) :: b64Char (b3 % 64) :: b64EncodeBytes rest

/-- btoa: base64-encode a string of Latin-1 characters (one byte per character).
All strings the route encodes are ASCII; JS throws on code points above 0xFF,
which cannot arise here. -/
def btoa (s : String) : String :=
  String.mk (b64EncodeBytes (s.data.map (fun c => c.toNat % 256)))

/-- 6-bit value of a base64 character, none for characters outside the alphabet. -/
def b64Val (c : Char) : Option Nat :=
  if 'A' ≤ c ∧ c ≤ 'Z' then some (c.toNat - 65)
  else if 'a' ≤ c ∧ c ≤ 'z' then some (c.toNat - 97 + 26)
  else if '0' ≤ c ∧ c ≤ '9' then some (c.toNat - 48 + 52)
  else if c = '+' then some 62
  else if c = '/' then some 63
  else none

/-- ASCII whitespace stripped by forgiving base64 decoding. -/
def isB64Ws (c : Char) : Bool :=
  c = ' ' ∨ c = '\t' ∨ c = '\n' ∨ c = '\x0c' ∨ c = '\x0d'

/-- Map base64 characters to their 6-bit values, failing on any invalid character. -/
def b64Values : List Char → Option (List Nat)
  | [] => some []
  | c :: rest =>
      match b64Val c, b64Values rest with
      | some v, some vs => some (v :: vs)
      | _, _ => none

/-- Reassemble bytes from 6-bit groups (forgiving base64: leftover bits dropped). -/
def b64DecodeGroups : List Nat → List Nat
  | a :: b :: c :: d :: rest =>
      (a * 4 + b / 16) :: (b % 16 * 16 + c / 4) :: (c % 4 * 64 + d) ::
        b64DecodeGroups rest
  | [a, b] => [a * 4 + b / 16]
  | [a, b, c] => [a * 4 + b / 16, b % 16 * 16 + c / 4]
  | _ => []

/-- Remove up to two trailing padding characters. -/
def stripB64Pad (cs : List Char) : List Char :=
  if cs.getLast? = some '=' then
    if cs.dropLast.getLast? = some '=' then cs.dropLast.dropLast else cs.dropLast
  else cs

/-- atob: forgiving base64 decode; none models the InvalidCharacterError throw. -/
def atob (s : String) : Option String :=
  let ws := s.data.filter (fun c => ¬ isB64Ws c)
  let cs := if ws.length % 4 = 0 then stripB64Pad ws else ws
  if cs.length % 4 = 1 then none
  else if cs.any (fun c => c = '=') then none
  else
    match b64Values cs with
    | some vs => some (String.mk ((b64DecodeGroups vs).map Char.ofNat))
    | none => none

/-- JSON whitespace accepted between tokens by JSON.parse. -/
def isJsonWs (c : Char) : Bool :=
  c = ' ' ∨ c = '\t' ∨ c = '\n' ∨ c = '\x0d'

/-- Drop leading JSON whitespace. -/
def skipJsonWs : List Char → List Char
  | [] => []
  | c :: rest => if isJsonWs c then skipJsonWs rest else c :: rest

/-- Value of a hexadecimal digit. -/
def hexVal (c : Char) : Option Nat :=
  if '0' ≤ c ∧ c ≤ '9' then some (c.toNat - 48)
  else if 'a' ≤ c ∧ c ≤ 'f' then some (c.toNat - 87)
  else if 'A' ≤ c ∧ c ≤ 'F' then some (c.toNat - 55)
  else none

/-- Parse the body of a JSON string literal (after the opening quote), returning
the decoded characters and the input after the closing quote. -/
def parseJsonStringAux : List Char → Option (List Char × List Char)
  | [] => none
  | '"' :: rest => some ([], rest)
  | '\\' :: e :: rest =>
      match e, rest with
      | '"', r => (parseJsonStringAux r).map (fun p => ('"' :: p.1, p.2))
      | '\\', r => (parseJsonStringAux r).map (fun p => ('\\' :: p.1, p.2))
      | '/', r => (parseJsonStringAux r).map (fun p => ('/' :: p.1, p.2))
      | 'b', r => (parseJsonStringAux r).map (fun p => ('\x08' :: p.1, p.2))
      | 'f', r => (parseJsonStringAux r).map (fun p => ('\x0c' :: p.1, p.2))
      | 'n', r => (parseJsonStringAux r).map (fun p => ('\n' :: p.1, p.2))
      | 'r', r => (parseJsonStringAux r).map (fun p => ('\x0d' :: p.1, p.2))
      | 't', r => (parseJsonStringAux r).map (fun p => ('\t' :: p.1, p.2))
      | 'u', h1 :: h2 :: h3 :: h4 :: r =>
          match hexVal h1, hexVal h2, hexVal h3, hexVal h4 with
          | some a, some b, some c, some d =>
              (parseJsonStringAux r).map
                (fun p => (Char.ofNat (a * 4096 + b * 256 + c * 16 + d) :: p.1, p.2))
          | _, _, _, _ => none
      | _, _ => none
  | c :: rest =>
      if c.toNat < 32 then none
      else (parseJsonStringAux rest).map (fun p => (c :: p.1, p.2))

/-- Decimal value of a digit sequence. -/
def digitsVal (ds : List Char) : Nat :=
  ds.foldl (fun acc c => acc * 10 + (c.toNat - 48)) 0

/-- Parse an optional exponent sign followed by at least one digit. -/
def parseJsonExpTail (er : List Char) : Option (List Char) :=
  let er1 := match er with
    | '+' :: t => t
    | '-' :: t => t
    | _ => er
  if (er1.takeWhile Char.isDigit).isEmpty then none
  else some (er1.dropWhile Char.isDigit)

/-- Parse a JSON numeric literal.  The value is modelled by its signed integer
part: the route never constructs non-integer numbers, and client payload JSON
is opaque (forwarded to the facilitator, never inspected by the route). -/
def parseJsonNumber (cs : List Char) : Option (Json × List Char) :=
  let signed := match cs with
    | '-' :: r => (true, r)
    | _ => (false, cs)
  let ds := signed.2.takeWhile Char.isDigit
  let r1 := signed.2.dropWhile Char.isDigit
  if ds.isEmpty then none
  else if ds.length > 1 ∧ ds.headD '0' = '0' then none
  else
    let afterFrac : Option (List Char) :=
      match r1 with
      | '.' :: fr =>
          if (fr.takeWhile Char.isDigit).isEmpty then none
          else some (fr.dropWhile Char.isDigit)
      | _ => some r1
    match afterFrac with
    | none => none
    | some r2 =>
        let afterExp : Option (List Char) :=
          match r2 with
          | 'e' :: er => parseJsonExpTail er
          | 'E' :: er => parseJsonExpTail er
          | _ => some r2
        match afterExp with
        | none => none
        | some r3 =>
            let v : Int := Int.ofNat (digitsVal ds)
            some (Json.num (if signed.1 then -v else v), r3)

mutual

/-- Fuel-indexed recursive-descent parser for a JSON value (JSON.parse). -/
def parseJsonVal : Nat → List Char → Option (Json × List Char)
  | 0, _ => none
  | Nat.succ f, cs =>
      match skipJsonWs cs with
      | [] => none
      | 'n' :: 'u' :: 'l' :: 'l' :: rest => some (Json.null, rest)
      | 't' :: 'r' :: 'u' :: 'e' :: rest => some (Json.bool true, rest)
      | 'f' :: 'a' :: 'l' :: 's' :: 'e' :: rest => some (Json.bool false, rest)
      | '"' :: rest =>
          (parseJsonStringAux rest).map (fun p => (Json.str (String.mk p.1), p.2))
      | '[' :: rest =>
          (match skipJsonWs rest with
           | ']' :: r2 => some (Json.arr [], r2)
           | r1 => (parseJsonElems f r1).map (fun p => (Json.arr p.1, p.2)))
      | '\x7b' :: rest =>
          (match skipJsonWs rest with
           | '\x7d' :: r2 => some (Json.obj [], r2)
           | r1 => (parseJsonMembers f r1).map (fun p => (Json.obj p.1, p.2)))
      | other => parseJsonNumber other

/-- Parse the non-empty element list of a JSON array, up to the closing bracket. -/
def parseJsonElems : Nat → List Char → Option (List Json × List Char)
  | 0, _ => none
  | Nat.succ f, cs =>
      match parseJsonVal f cs with
      | none => none
      | some (v, rest) =>
          match skipJsonWs rest with
          | ',' :: r2 => (parseJsonElems f r2).map (fun p => (v :: p.1, p.2))
          | ']' :: r2 => some ([v], r2)
          | _ => none

/-- Parse the non-empty member list of a JSON object, up to the closing brace. -/
def parseJsonMembers : Nat → List Char → Option (List (String × Json) × List Char)
  | 0, _ => none
  | Nat.succ f, cs =>
      match skipJsonWs cs with
      | '"' :: rest =>
          match parseJsonStringAux rest with
          | none => none
          | some (kcs, r1) =>
              match skipJsonWs r1 with
              | ':' :: r2 =>
                  (match parseJsonVal f r2 with
                   | none => none
                   | some (v, r3) =>
                       match skipJsonWs r3 with
                       | ',' :: r4 =>
                           (parseJsonMembers f r4).map
                             (fun p => ((String.mk kcs, v) :: p.1, p.2))
                       | '\x7d' :: r4 => some ([(String.mk kcs, v)], r4)
                       | _ => none)
              | _ => none
      | _ => none

end

/-- JSON.parse: parse a complete JSON document, rejecting trailing input;
none models the SyntaxError throw. -/
def jsonParse (s : String) : Option Json :=
  match parseJsonVal (2 * s.length + 4) s.data with
  | some (j, rest) => if (skipJsonWs rest).isEmpty then some j else none
  | none => none

/-- Fuel-driven base-2 logarithm; structural recursion on the fuel so the
kernel can evaluate it (the recursion stops once the argument drops below 2). -/
def log2Fuel : Nat → Nat → Nat
  | 0, _ => 0
  | Nat.succ f, n => if 2 ≤ n then log2Fuel f (n / 2) + 1 else 0

/-- Floor of the base-2 logarithm. -/
def natLog2 (n : Nat) : Nat := log2Fuel n n

/-- Round a natural number to the value of the nearest IEEE-754 binary64
(round half to even): magnitudes up to 2^53 are exact, larger ones keep 53
significand bits.  The overflow threshold is never approached here. -/
def fp64RoundNat (n : Nat) : Nat :=
  if n ≤ 2 ^ 53 then n
  else
    let k := natLog2 n - 52
    let q := n / 2 ^ k
    let r := n % 2 ^ k
    let half := 2 ^ (k - 1)
    let q2 := if r > half then q + 1
      else if r < half then q
      else if q % 2 = 0 then q else q + 1
    q2 * 2 ^ k

/-- Round an integer to the value of the nearest IEEE-754 binary64. -/
def fp64RoundInt (n : Int) : Int :=
  if n < 0 then -(Int.ofNat (fp64RoundNat n.natAbs))
  else Int.ofNat (fp64RoundNat n.natAbs)

/-- Largest power of ten (up to 10^20) having a multiple inside [lo, hi]. -/
def maxPow10In (lo hi : Nat) : Nat :=
  (List.range 21).foldl
    (fun acc e => if (lo + 10 ^ e - 1) / 10 ^ e * 10 ^ e ≤ hi then e else acc) 0

/-- The multiple of m inside [lo, hi] nearest to v (one is assumed to exist). -/
def nearestMultipleIn (m lo hi v : Nat) : Nat :=
  let c := if v % m * 2 ≥ m then (v / m + 1) * m else v / m * m
  if c < lo then c + m else if c > hi then c - m else c

/-- ECMAScript Number::toString for a nonnegative integer-valued binary64
below 10^21: integers up to 2^53 print their exact decimal digits; larger
values print the shortest decimal that rounds back to the same double, the
rounding interval being half an ulp on each side (a quarter below at an exact
power of two), endpoints included exactly when the significand is even
(round half to even). -/
def jsDoubleNatToString (v : Nat) : String :=
  if v ≤ 2 ^ 53 then toString v
  else
    let k := natLog2 v - 52
    let even := v / 2 ^ k % 2 = 0
    let halfUp := 2 ^ (k - 1)
    let halfDown := if v = 2 ^ natLog2 v then 2 ^ (k - 2) else halfUp
    let lo := if even then v - halfDown else v - halfDown + 1
    let hi := if even then v + halfUp else v + halfUp - 1
    let e := maxPow10In lo hi
    toString (nearestMultipleIn (10 ^ e) lo hi v)

/-- Number::toString of an integer-valued binary64. -/
def jsDoubleIntToString (n : Int) : String :=
  if n < 0 then "-" ++ jsDoubleNatToString n.natAbs
  else jsDoubleNatToString n.natAbs

/-- JS Number.parseInt with radix 10: skip whitespace, optional sign, longest
digit prefix (trailing input ignored), the digit value rounded to the nearest
binary64 (exact up to 2^53); none models the NaN result. -/
def jsParseInt (s : String) : Option Int :=
  let cs := s.data.dropWhile
    (fun c => c = ' ' ∨ c = '\t' ∨ c = '\n' ∨ c = '\x0b' ∨ c = '\x0c' ∨ c = '\x0d')
  let signed := match cs with
    | '-' :: r => (true, r)
    | '+' :: r => (false, r)
    | _ => (false, cs)
  let ds := signed.2.takeWhile Char.isDigit
  if ds.isEmpty then none
  else
    let v : Int := Int.ofNat (fp64RoundNat (digitsVal ds))
    some (if signed.1 then -v else v)

/-- The static per-network configuration entries (NETWORK_CONFIG values). -/
structure NetworkConfig where
  chainId : Nat
  chainIdCAIP : String
  asset : String
  displayName : String
  eip712Name : String
  eip712Version : String
deriving Repr, DecidableEq

/-- NETWORK_CONFIG lookup table from the route file. -/
def NETWORK_CONFIG : String → Option NetworkConfig
  | "base-sepolia" =>
      some ⟨84532, "eip155:84532", "0x036CbD53842c5426634e7929541eC2318f3dCF7e",
        "Base Sepolia", "USDC", "2"⟩
  | "base" =>
      some ⟨8453, "eip155:8453", "0x833589fCD6eDb6E08f4c7C32D4f71b54bdA02913",
        "Base", "USD Coin", "2"⟩
  | "sepolia" =>
      some ⟨11155111, "eip155:11155111", "0x1c7D4B196Cb0C7B01d743Fbc6116a902379C7238",
        "Sepolia", "USDC", "2"⟩
  | "mainnet" =>
      some ⟨1, "eip155:1", "0xA0b86991c6218b36c1d19D4a2e9Eb0cE3606eB48",
        "Ethereum", "USD Coin", "2"⟩
  | _ => none

/-- x402 v2 payment requirement value object built by the route. -/
structure PaymentRequirement where
  scheme : String
  network : String
  amount : String
  resource : String
  description : String
  mimeType : String
  payTo : String
  maxTimeoutSeconds : Nat
  asset : String
  extraName : String
  extraVersion : String
deriving Repr, DecidableEq

/-- A JS number that is either an integer or NaN (none); amounts flow through
Number.parseInt, which yields an integer or NaN. -/
abbrev JsNum := Option Int

/-- The amount string `(amountCents * 10000).toString()`: the product is
binary64 multiplication (the exact integer product, correctly rounded to the
nearest double) and the string is Number::toString of the result; NaN
stringifies to "NaN". -/
def amountTimes10000String : JsNum → String
  | none => "NaN"
  | some n => jsDoubleIntToString (fp64RoundInt (n * 10000))

/-- Two-digit zero-padded decimal of a value below 100. -/
def pad2 (m : Nat) : String :=
  (if m < 10 then "0" else "") ++ toString m

/-- The display price `(amountCents / 100).toFixed(2)`; NaN stringifies to "NaN". -/
def priceInDollarsString : JsNum → String
  | none => "NaN"
  | some n =>
      (if n < 0 then "-" else "") ++
        toString (n.natAbs / 100) ++ "." ++ pad2 (n.natAbs % 100)

/-- Body of buildPaymentRequirements after the NETWORK_CONFIG lookup succeeded. -/
def buildRequirementsWith (cfg : NetworkConfig) (recipient : String)
    (amountCents : JsNum) (resourceUrl : String) : List PaymentRequirement :=
  [{ scheme := "exact"
     network := cfg.chainIdCAIP
     amount := amountTimes10000String amountCents
     resource := resourceUrl
     description :=
       "Donation of $" ++ priceInDollarsString amountCents ++ " to " ++ recipient
     mimeType := "application/json"
     payTo := recipient
     maxTimeoutSeconds := 300
     asset := cfg.asset
     extraName := cfg.eip712Name
     extraVersion := cfg.eip712Version }]

/-- buildPaymentRequirements: none models the thrown "Unsupported network" error. -/
def buildPaymentRequirements (recipient network : String) (amountCents : JsNum)
    (resourceUrl : String) : Option (List PaymentRequirement) :=
  (NETWORK_CONFIG network).map
    (fun cfg => buildRequirementsWith cfg recipient amountCents resourceUrl)

/-- JSON object for a payment requirement, keys in the source's literal order. -/
def reqToJson (r : PaymentRequirement) : Json :=
  Json.obj
    [("scheme", Json.str r.scheme),
     ("network", Json.str r.network),
     ("amount", Json.str r.amount),
     ("resource", Json.str r.resource),
     ("description", Json.str r.description),
     ("mimeType", Json.str r.mimeType),
     ("payTo", Json.str r.payTo),
     ("maxTimeoutSeconds", Json.num (Int.ofNat r.maxTimeoutSeconds)),
     ("asset", Json.str r.asset),
     ("extra",
       Json.obj [("name", Json.str r.extraName), ("version", Json.str r.extraVersion)])]

/-- An HTTP response: status, headers, serialized body. -/
structure HttpResponse where
  status : Nat
  headers : List (String × String)
  body : String
deriving Repr, DecidableEq

/-- Response.json(body, status): JSON content type, serialized body. -/
def jsonResponse (status : Nat) (j : Json) : HttpResponse :=
  ⟨status, [("Content-Type", "application/json")], jsonStringify j⟩

/-- createPaymentRequiredResponse: 402 with the base64 x402 blob in the
PAYMENT-REQUIRED header. -/
def createPaymentRequiredResponse (reqs : List PaymentRequirement) : HttpResponse :=
  let paymentRequired := Json.obj
    [("x402Version", Json.num 2),
     ("accepts", Json.arr (reqs.map reqToJson)),
     ("error", Json.str "Payment Required")]
  let encodedPaymentRequired := btoa (jsonStringify paymentRequired)
  ⟨402,
   [("Content-Type", "application/json"),
    ("PAYMENT-REQUIRED", encodedPaymentRequired)],
   jsonStringify (Json.obj [("error", Json.str "Payment Required")])⟩

/-- The process environment, mapping variable names to values. -/
abbrev ProcessEnv := String → Option String

/-- Result shape of getServerEnv (src/env.ts): only FACILITATOR_URL is present. -/
structure ServerEnv where
  FACILITATOR_URL : String
deriving Repr, DecidableEq

/-- getServerEnv from src/env.ts: FACILITATOR_URL defaulted via the nullish
operator; no other field is returned. -/
def getServerEnv (penv : ProcessEnv) : ServerEnv :=
  { FACILITATOR_URL :=
      match penv "FACILITATOR_URL" with
      | some u => u
      | none => "https://x402.org/facilitator" }

/-- Lowercase an ASCII letter. -/
def lowerChar (c : Char) : Char :=
  if 'A' ≤ c ∧ c ≤ 'Z' then Char.ofNat (c.toNat + 32) else c

/-- ASCII-lowercase a string (header name normalization). -/
def lowerStr (s : String) : String :=
  String.mk (s.data.map lowerChar)

/-- request.headers.get: case-insensitive lookup, null when absent. -/
def headersGet (hs : List (String × String)) (nm : String) : Option String :=
  (hs.find? (fun p => lowerStr p.1 = lowerStr nm)).map Prod.snd

/-- JS logical-or on header lookup results: an empty string is falsy. -/
def jsOrStr (a b : Option String) : Option String :=
  match a with
  | some s => if s = "" then b else some s
  | none => b

/-- The payment header chain from the POST handler:
PAYMENT-SIGNATURE, payment-signature, X-PAYMENT, x-payment. -/
def paymentHeaderOf (hs : List (String × String)) : Option String :=
  jsOrStr (jsOrStr (jsOrStr (headersGet hs "PAYMENT-SIGNATURE")
    (headersGet hs "payment-signature")) (headersGet hs "X-PAYMENT"))
    (headersGet hs "x-payment")

/-- Facilitator /verify response body. -/
structure VerifyResult where
  isValid : Bool
  invalidReason : Option String
deriving Repr, DecidableEq

/-- Facilitator /settle response body. -/
structure SettleResult where
  success : Bool
  errorReason : Option String
  transaction : Option String
deriving Repr, DecidableEq

/-- Outcome of one fetch to the facilitator: the promise rejected (network
failure or timeout), a non-2xx response with its body text, a 2xx response
whose body fails to parse as JSON, or a 2xx response with a parsed body. -/
inductive FetchResult (α : Type) where
  | exn : FetchResult α
  | notOk (errorText : String) : FetchResult α
  | okBadJson : FetchResult α
  | ok (body : α) : FetchResult α
deriving Repr, DecidableEq

/-- Facilitator test double: the outcome each endpoint would produce. -/
structure Facilitator where
  verify : FetchResult VerifyResult
  settle : FetchResult SettleResult
deriving Repr, DecidableEq

/-- Which facilitator endpoint a call went to. -/
inductive FacCallKind where
  | verify : FacCallKind
  | settle : FacCallKind
deriving Repr, DecidableEq

/-- One recorded facilitator call: endpoint, URL, request headers used. -/
structure FacCall where
  kind : FacCallKind
  url : String
  headers : List (String × String)
deriving Repr, DecidableEq

/-- The catch-all response of the POST handler's try/catch. -/
def processingFailedResponse : HttpResponse :=
  jsonResponse 500 (Json.obj [("error", Json.str "Payment processing failed")])

/-- Body of the POST handler's try block once a non-empty payment header is in
hand: decode the payload, rebuild the requirements, then verify and (on a valid
verification only) settle, recording each facilitator call made.  A decode
failure, a rejected fetch, or a non-JSON 2xx body lands in the catch block. -/
def redeemFlow (cfg : NetworkConfig) (recipient network : String)
    (amountCents : JsNum) (requestUrl paymentHeader : String)
    (penv : ProcessEnv) (facil : Facilitator) : HttpResponse × List FacCall :=
  match (atob paymentHeader).bind jsonParse with
  | none => (processingFailedResponse, [])
  | some _paymentPayload =>
    let _reqs := buildRequirementsWith cfg recipient amountCents requestUrl
    let senv := getServerEnv penv
    -- const \x7b FACILITATOR_URL, FACILITATOR_API_KEY \x7d = getServerEnv():
    -- ServerEnv (src/env.ts) has no FACILITATOR_API_KEY field, so the
    -- destructured FACILITATOR_API_KEY is undefined.
    let apiKey : Option String := none
    let fetchHeaders := match apiKey with
      | some k => [("Content-Type", "application/json"), ("X-API-KEY", k)]
      | none => [("Content-Type", "application/json")]
    let verifyCall : FacCall :=
      ⟨FacCallKind.verify, senv.FACILITATOR_URL ++ "/verify", fetchHeaders⟩
    match facil.verify with
    | FetchResult.exn => (processingFailedResponse, [verifyCall])
    | FetchResult.okBadJson => (processingFailedResponse, [verifyCall])
    | FetchResult.notOk errorText =>
        (jsonResponse 400 (Json.obj
          [("error", Json.str "Payment verification failed"),
           ("details", Json.str errorText)]), [verifyCall])
    | FetchResult.ok verifyResult =>
        if verifyResult.isValid = false then
          (jsonResponse 400 (Json.obj
            (("error", Json.str "Invalid payment") ::
              (match verifyResult.invalidReason with
               | some r => [("reason", Json.str r)]
               | none => []))), [verifyCall])
        else
          let settleCall : FacCall :=
            ⟨FacCallKind.settle, senv.FACILITATOR_URL ++ "/settle", fetchHeaders⟩
          match facil.settle with
          | FetchResult.exn => (processingFailedResponse, [verifyCall, settleCall])
          | FetchResult.okBadJson =>
              (processingFailedResponse, [verifyCall, settleCall])
          | FetchResult.notOk errorText =>
              (jsonResponse 500 (Json.obj
                [("error", Json.str "Payment settlement failed"),
                 ("details", Json.str errorText)]), [verifyCall, settleCall])
          | FetchResult.ok settleResult =>
              if settleResult.success = false then
                (jsonResponse 500 (Json.obj
                  (("error", Json.str "Settlement failed") ::
                    (match settleResult.errorReason with
                     | some r => [("reason", Json.str r)]
                     | none => []))), [verifyCall, settleCall])
              else
                (jsonResponse 200 (Json.obj
                  ([("success", Json.bool true),
                    ("message", Json.str "Thank you for your donation! ☕"),
                    ("recipient", Json.str recipient),
                    ("network", Json.str network)] ++
                   (match settleResult.transaction with
                    | some t => [("txHash", Json.str t)]
                    | none => []))), [verifyCall, settleCall])

/-- The recipient address check: /^0x[a-fA-F0-9]\x7b40\x7d$/. -/
def isHexDig (c : Char) : Bool :=
  ('0' ≤ c ∧ c ≤ '9') ∨ ('a' ≤ c ∧ c ≤ 'f') ∨ ('A' ≤ c ∧ c ≤ 'F')

/-- Whether a recipient matches the 20-byte hex address pattern. -/
def isValidRecipient (s : String) : Bool :=
  match s.data with
  | '0' :: 'x' :: rest => rest.length = 40 ∧ rest.all isHexDig
  | _ => false

/-- The effective amount query string: absent or empty falls back to "100". -/
def amountParamStr : Option String → String
  | some s => if s = "" then "100" else s
  | none => "100"

/-- The JS comparison `amountCents < 1`, false for NaN. -/
def jsNumLt1 : JsNum → Bool
  | none => false
  | some n => n < 1

/-- GET handler: validate recipient, network, amount, then issue the 402
challenge. -/
def Route.GET (recipient network : String) (amountParam : Option String)
    (requestUrl : String) : HttpResponse :=
  let amountCents := jsParseInt (amountParamStr amountParam)
  if isValidRecipient recipient = false then
    jsonResponse 400 (Json.obj [("error", Json.str "Invalid recipient address")])
  else
    match NETWORK_CONFIG network with
    | none => jsonResponse 400 (Json.obj [("error", Json.str "Unsupported network")])
    | some cfg =>
      if jsNumLt1 amountCents then
        jsonResponse 400 (Json.obj [("error", Json.str "Invalid amount")])
      else
        createPaymentRequiredResponse
          (buildRequirementsWith cfg recipient amountCents requestUrl)

/-- POST handler: validate network, look for a payment header (the 402
challenge is re-issued when none is present), otherwise run the redemption
flow.  Returns the response together with the facilitator calls made. -/
def Route.POST (recipient network : String) (amountParam : Option String)
    (requestUrl : String) (reqHeaders : List (String × String))
    (penv : ProcessEnv) (facil : Facilitator) : HttpResponse × List FacCall :=
  let amountCents := jsParseInt (amountParamStr amountParam)
  match NETWORK_CONFIG network with
  | none =>
      (jsonResponse 400 (Json.obj [("error", Json.str "Unsupported network")]), [])
  | some cfg =>
    match paymentHeaderOf reqHeaders with
    | none =>
        (createPaymentRequiredResponse
          (buildRequirementsWith cfg recipient amountCents requestUrl), [])
    | some h =>
      if h = "" then
        (createPaymentRequiredResponse
          (buildRequirementsWith cfg recipient amountCents requestUrl), [])
      else redeemFlow cfg recipient network amountCents requestUrl h penv facil

/-- Modelled from the spec wording for the challenge header: base64 of the JSON
serialization of an object whose version key is named protocolVersion.  Used
only to compare the spec's stated header blob against the one the code builds
(whose version key is x402Version). -/
def specProtocolVersionBlob (reqs : List PaymentRequirement) : String :=
  btoa (jsonStringify (Json.obj
    [("protocolVersion", Json.num 2),
     ("accepts", Json.arr (reqs.map reqToJson)),
     ("error", Json.str "Payment Required")]))

/-- The kinds of the facilitator calls an outcome's trace records. -/
def callKinds (out : HttpResponse × List FacCall) : List FacCallKind :=
  out.2.map FacCall.kind

/-- The facilitator-call trace of the redemption flow is empty, a lone verify,
or verify followed by settle; the latter happens only when verify returned a
2xx body with isValid true. -/
lemma redeemFlow_calls_shape (cfg : NetworkConfig) (recipient network : String)
    (amountCents : JsNum) (requestUrl h : String) (penv : ProcessEnv)
    (facil : Facilitator) :
    callKinds (redeemFlow cfg recipient network amountCents requestUrl h penv facil) = [] ∨
    callKinds (redeemFlow cfg recipient network amountCents requestUrl h penv facil) =
      [FacCallKind.verify] ∨
    (callKinds (redeemFlow cfg recipient network amountCents requestUrl h penv facil) =
        [FacCallKind.verify, FacCallKind.settle] ∧
      ∃ v, facil.verify = FetchResult.ok v ∧ v.isValid = true) := by
  rcases hdec : (atob h).bind jsonParse with _ | p
  · simp [callKinds, redeemFlow, hdec]
  · rcases hv : facil.verify with _ | t | _ | v
    · simp [callKinds, redeemFlow, hdec, hv]
    · simp [callKinds, redeemFlow, hdec, hv]
    · simp [callKinds, redeemFlow, hdec, hv]
    · rcases hval : v.isValid with _ | _
      · simp [callKinds, redeemFlow, hdec, hv, hval]
      · rcases hs : facil.settle with _ | t | _ | s
        · refine Or.inr (Or.inr ⟨by simp [callKinds, redeemFlow, hdec, hv, hval, hs], v, rfl, hval⟩)
        · refine Or.inr (Or.inr ⟨by simp [callKinds, redeemFlow, hdec, hv, hval, hs], v, rfl, hval⟩)
        · refine Or.inr (Or.inr ⟨by simp [callKinds, redeemFlow, hdec, hv, hval, hs], v, rfl, hval⟩)
        · rcases hsucc : s.success with _ | _
          · refine Or.inr (Or.inr ⟨by simp [callKinds, redeemFlow, hdec, hv, hval, hs, hsucc], v, rfl, hval⟩)
          · refine Or.inr (Or.inr ⟨by simp [callKinds, redeemFlow, hdec, hv, hval, hs, hsucc], v, rfl, hval⟩)

/-- The facilitator-call trace of the POST handler has the same three possible
shapes as the redemption flow's. -/
lemma post_calls_shape (recipient network : String) (amountParam : Option String)
    (requestUrl : String) (reqHeaders : List (String × String))
    (penv : ProcessEnv) (facil : Facilitator) :
    callKinds (Route.POST recipient network amountParam requestUrl reqHeaders penv facil) = [] ∨
    callKinds (Route.POST recipient network amountParam requestUrl reqHeaders penv facil) =
      [FacCallKind.verify] ∨
    (callKinds (Route.POST recipient network amountParam requestUrl reqHeaders penv facil) =
        [FacCallKind.verify, FacCallKind.settle] ∧
      ∃ v, facil.verify = FetchResult.ok v ∧ v.isValid = true) := by
  rcases hc : NETWORK_CONFIG network with _ | cfg
  · simp [callKinds, Route.POST, hc]
  · rcases hh : paymentHeaderOf reqHeaders with _ | h
    · simp [callKinds, Route.POST, hc, hh]
    · by_cases he : h = ""
      · simp [callKinds, Route.POST, hc, hh, he]
      · have hshape := redeemFlow_calls_shape cfg recipient network
          (jsParseInt (amountParamStr amountParam)) requestUrl h penv facil
        simpa [callKinds, Route.POST, hc, hh, he] using hshape

/-- Claim C1: in the POST redemption flow, the facilitator settle call is made
at most once per request, and only strictly after a verify call completed with
a 2xx response whose body has isValid true. -/
theorem settle_only_after_valid_verify (recipient network : String)
    (amountParam : Option String) (requestUrl : String)
    (reqHeaders : List (String × String)) (penv : ProcessEnv) (facil : Facilitator) :
    (callKinds (Route.POST recipient network amountParam requestUrl reqHeaders
        penv facil)).count FacCallKind.settle ≤ 1 ∧
    (FacCallKind.settle ∈ callKinds (Route.POST recipient network amountParam
        requestUrl reqHeaders penv facil) →
      ∃ v, facil.verify = FetchResult.ok v ∧ v.isValid = true ∧
        callKinds (Route.POST recipient network amountParam requestUrl reqHeaders
          penv facil) = [FacCallKind.verify, FacCallKind.settle]) := by
  rcases post_calls_shape recipient network amountParam requestUrl reqHeaders penv facil
    with hsh | hsh | ⟨hsh, v, hv, hval⟩
  · rw [hsh]; exact ⟨by simp, by simp⟩
  · rw [hsh]; exact ⟨by simp, by simp⟩
  · rw [hsh]; exact ⟨by simp, fun _ => ⟨v, hv, hval, rfl⟩⟩

/-- Concrete instantiation: with a facilitator double whose verify answers
isValid true and whose settle succeeds, the recorded trace is exactly verify
followed by settle. -/
theorem settle_only_after_valid_verify_witness :
    ∃ v, (Facilitator.mk (FetchResult.ok ⟨true, none⟩)
        (FetchResult.ok ⟨true, none, some "0xabc123"⟩)).verify = FetchResult.ok v ∧
      v.isValid = true ∧
      callKinds (Route.POST "0xr" "base" none "u" [("payment-signature", "e30=")]
        (fun _ => none) (Facilitator.mk (FetchResult.ok ⟨true, none⟩)
          (FetchResult.ok ⟨true, none, some "0xabc123"⟩))) =
        [FacCallKind.verify, FacCallKind.settle] :=
  (settle_only_after_valid_verify "0xr" "base" none "u" [("payment-signature", "e30=")]
    (fun _ => none) (Facilitator.mk (FetchResult.ok ⟨true, none⟩)
      (FetchResult.ok ⟨true, none, some "0xabc123"⟩))).2 (by decide)

/-- Naturals up to 2^53 are binary64-exact. -/
lemma fp64RoundNat_small (m : Nat) (h : m ≤ 2 ^ 53) : fp64RoundNat m = m := by
  unfold fp64RoundNat
  rw [if_pos h]

/-- Number::toString prints naturals up to 2^53 exactly. -/
lemma jsDoubleNatToString_small (m : Nat) (h : m ≤ 2 ^ 53) :
    jsDoubleNatToString m = toString m := by
  unfold jsDoubleNatToString
  rw [if_pos h]

/-- At amount 9007199254740991 (2^53 - 1, itself binary64-exact and returned
exactly by Number.parseInt) the double product rounds: the code's amount
string is "90071992547409900000", not the exact decimal string
"90071992547409910000" of the integer product, so the unrestricted exactness
claim is false of the program. -/
theorem amount_rounding_counterexample :
    (buildPaymentRequirements "0xr" "base" (some 9007199254740991) "u").map
        (List.map PaymentRequirement.amount) = some ["90071992547409900000"] ∧
    toString (9007199254740991 * 10000 : Int) = "90071992547409910000" ∧
    ("90071992547409900000" : String) ≠ "90071992547409910000" ∧
    jsParseInt "9007199254740991" = some 9007199254740991 := by
  refine ⟨by decide, by decide, by decide, by decide⟩

/-- Claim C2 amended: for every recipient, configured network and integer
amount between 1 and 900719925474 — so that the product in USDC base units
stays within 2^53, where the code's binary64 arithmetic and printing are
exact — the amount field is exactly the decimal integer string of amount
times 10000; in particular amount 300 yields "3000000" on every configured
network.  Beyond that range the double product can round. -/
theorem buildPaymentRequirements_amount_exact (recipient network : String)
    (cfg : NetworkConfig) (a : Int) (resourceUrl : String)
    (hcfg : NETWORK_CONFIG network = some cfg) (ha : 1 ≤ a)
    (hb : a ≤ 900719925474) :
    (buildPaymentRequirements recipient network (some a) resourceUrl).map
        (List.map PaymentRequirement.amount) = some [toString (a * 10000)] ∧
    (a = 300 →
      (buildPaymentRequirements recipient network (some a) resourceUrl).map
        (List.map PaymentRequirement.amount) = some ["3000000"]) := by
  have h53 : (2 : Nat) ^ 53 = 9007199254740992 := by norm_num
  have hm : (a * 10000).natAbs ≤ 2 ^ 53 := by
    rw [h53]
    omega
  have hnn : ¬ a * 10000 < 0 := by omega
  have hr : fp64RoundInt (a * 10000) = a * 10000 := by
    unfold fp64RoundInt
    rw [if_neg hnn, fp64RoundNat_small _ hm]
    exact Int.natAbs_of_nonneg (by omega)
  obtain ⟨m, hm2⟩ : ∃ m : Nat, a * 10000 = Int.ofNat m :=
    ⟨(a * 10000).toNat, (Int.toNat_of_nonneg (by omega)).symm⟩
  have hstr : amountTimes10000String (some a) = toString (a * 10000) := by
    show jsDoubleIntToString (fp64RoundInt (a * 10000)) = toString (a * 10000)
    rw [hr]
    unfold jsDoubleIntToString
    rw [if_neg hnn, jsDoubleNatToString_small _ hm, hm2]
    rfl
  have hmain : (buildPaymentRequirements recipient network (some a) resourceUrl).map
      (List.map PaymentRequirement.amount) = some [toString (a * 10000)] := by
    simp [buildPaymentRequirements, hcfg, buildRequirementsWith, hstr]
  refine ⟨hmain, ?_⟩
  rintro rfl
  rw [hmain]
  have h3 : (300 * 10000 : Int) = 3000000 := by norm_num
  rw [h3]
  rfl

/-- Concrete instantiation: amount 300 on the base network yields requirement
amount "3000000". -/
theorem buildPaymentRequirements_amount_exact_witness :
    (buildPaymentRequirements "0xr" "base" (some 300) "u").map
      (List.map PaymentRequirement.amount) = some ["3000000"] :=
  (buildPaymentRequirements_amount_exact "0xr" "base"
    ⟨8453, "eip155:8453", "0x833589fCD6eDb6E08f4c7C32D4f71b54bdA02913",
      "Base", "USD Coin", "2"⟩ 300 "u" rfl (by norm_num) (by norm_num)).2 rfl

/-- Claim C3: with a payment header on a configured network, a 2xx verify
answer with isValid false and reason r yields HTTP 400 with body error
"Invalid payment", reason r; a valid verify followed by a 2xx settle answer
with success false and reason s yields HTTP 500 with body error
"Settlement failed", reason s. -/
theorem invalid_payment_and_settlement_failed (recipient network : String)
    (amountParam : Option String) (requestUrl : String)
    (reqHeaders : List (String × String)) (penv : ProcessEnv) (facil : Facilitator)
    (cfg : NetworkConfig) (h : String) (p : Json) (r s : String)
    (hcfg : NETWORK_CONFIG network = some cfg)
    (hh : paymentHeaderOf reqHeaders = some h) (hne : h ≠ "")
    (hdec : (atob h).bind jsonParse = some p) :
    (facil.verify = FetchResult.ok ⟨false, some r⟩ →
      (Route.POST recipient network amountParam requestUrl reqHeaders penv facil).1 =
        jsonResponse 400 (Json.obj
          [("error", Json.str "Invalid payment"), ("reason", Json.str r)])) ∧
    ((∃ v, facil.verify = FetchResult.ok v ∧ v.isValid = true) →
      ∀ t, facil.settle = FetchResult.ok ⟨false, some s, t⟩ →
        (Route.POST recipient network amountParam requestUrl reqHeaders penv facil).1 =
          jsonResponse 500 (Json.obj
            [("error", Json.str "Settlement failed"), ("reason", Json.str s)])) := by
  constructor
  · intro hv
    simp [Route.POST, hcfg, hh, hne, redeemFlow, hdec, hv]
  · rintro ⟨v, hv, hval⟩ t hs
    simp [Route.POST, hcfg, hh, hne, redeemFlow, hdec, hv, hval, hs]

/-- Concrete instantiation: verify answering isValid false with reason
"expired" gives the 400 Invalid payment body; a valid verify with settle
answering success false with reason "insufficient_funds" gives the 500
Settlement failed body. -/
theorem invalid_payment_and_settlement_failed_witness :
    (Route.POST "0xr" "base" none "u" [("payment-signature", "e30=")] (fun _ => none)
        (Facilitator.mk (FetchResult.ok ⟨false, some "expired"⟩) FetchResult.exn)).1 =
      jsonResponse 400 (Json.obj
        [("error", Json.str "Invalid payment"), ("reason", Json.str "expired")]) ∧
    (Route.POST "0xr" "base" none "u" [("payment-signature", "e30=")] (fun _ => none)
        (Facilitator.mk (FetchResult.ok ⟨true, none⟩)
          (FetchResult.ok ⟨false, some "insufficient_funds", none⟩))).1 =
      jsonResponse 500 (Json.obj
        [("error", Json.str "Settlement failed"),
         ("reason", Json.str "insufficient_funds")]) :=
  ⟨(invalid_payment_and_settlement_failed "0xr" "base" none "u"
      [("payment-signature", "e30=")] (fun _ => none)
      (Facilitator.mk (FetchResult.ok ⟨false, some "expired"⟩) FetchResult.exn)
      ⟨8453, "eip155:8453", "0x833589fCD6eDb6E08f4c7C32D4f71b54bdA02913",
        "Base", "USD Coin", "2"⟩ "e30=" (Json.obj []) "expired" "x"
      rfl rfl (by decide) rfl).1 rfl,
   (invalid_payment_and_settlement_failed "0xr" "base" none "u"
      [("payment-signature", "e30=")] (fun _ => none)
      (Facilitator.mk (FetchResult.ok ⟨true, none⟩)
        (FetchResult.ok ⟨false, some "insufficient_funds", none⟩))
      ⟨8453, "eip155:8453", "0x833589fCD6eDb6E08f4c7C32D4f71b54bdA02913",
        "Base", "USD Coin", "2"⟩ "e30=" (Json.obj []) "x" "insufficient_funds"
      rfl rfl (by decide) rfl).2 ⟨⟨true, none⟩, rfl, rfl⟩ none rfl⟩

/-- At a concrete redemption where the verify fetch itself fails (promise
rejection, as for a timeout or network error), a verify call is recorded yet
the response is HTTP 500, not the claimed 400. -/
theorem verify_transport_error_counterexample :
    callKinds (Route.POST "0xr" "base" none "u" [("payment-signature", "e30=")]
        (fun _ => none) (Facilitator.mk FetchResult.exn FetchResult.exn)) =
      [FacCallKind.verify] ∧
    (Route.POST "0xr" "base" none "u" [("payment-signature", "e30=")]
        (fun _ => none) (Facilitator.mk FetchResult.exn FetchResult.exn)).1.status = 500 ∧
    (Route.POST "0xr" "base" none "u" [("payment-signature", "e30=")]
        (fun _ => none) (Facilitator.mk FetchResult.exn FetchResult.exn)).1.status ≠ 400 := by
  refine ⟨by decide, by decide, by decide⟩

/-- Claim C4 amended: a non-2xx verify response yields HTTP 400 (with the
verification-failed body carrying the response text), while a verify fetch
that itself fails — a rejected promise, as for a timeout or network error —
is caught by the handler's catch-all and yields HTTP 500 Payment processing
failed. -/
theorem verify_transport_failure_statuses (recipient network : String)
    (amountParam : Option String) (requestUrl : String)
    (reqHeaders : List (String × String)) (penv : ProcessEnv) (facil : Facilitator)
    (cfg : NetworkConfig) (h : String) (p : Json)
    (hcfg : NETWORK_CONFIG network = some cfg)
    (hh : paymentHeaderOf reqHeaders = some h) (hne : h ≠ "")
    (hdec : (atob h).bind jsonParse = some p) :
    (∀ t, facil.verify = FetchResult.notOk t →
      (Route.POST recipient network amountParam requestUrl reqHeaders penv facil).1 =
        jsonResponse 400 (Json.obj
          [("error", Json.str "Payment verification failed"),
           ("details", Json.str t)])) ∧
    (facil.verify = FetchResult.exn →
      (Route.POST recipient network amountParam requestUrl reqHeaders penv facil).1 =
        processingFailedResponse) := by
  constructor
  · intro t hv
    simp [Route.POST, hcfg, hh, hne, redeemFlow, hdec, hv]
  · intro hv
    simp [Route.POST, hcfg, hh, hne, redeemFlow, hdec, hv]

/-- Concrete instantiation: a non-2xx verify response gives the 400 body with
its text; a rejected verify fetch gives the 500 catch-all response. -/
theorem verify_transport_failure_statuses_witness :
    (Route.POST "0xr" "base" none "u" [("payment-signature", "e30=")] (fun _ => none)
        (Facilitator.mk (FetchResult.notOk "bad gateway") FetchResult.exn)).1 =
      jsonResponse 400 (Json.obj
        [("error", Json.str "Payment verification failed"),
         ("details", Json.str "bad gateway")]) ∧
    (Route.POST "0xr" "base" none "u" [("payment-signature", "e30=")] (fun _ => none)
        (Facilitator.mk FetchResult.exn FetchResult.exn)).1 =
      processingFailedResponse :=
  ⟨(verify_transport_failure_statuses "0xr" "base" none "u"
      [("payment-signature", "e30=")] (fun _ => none)
      (Facilitator.mk (FetchResult.notOk "bad gateway") FetchResult.exn)
      ⟨8453, "eip155:8453", "0x833589fCD6eDb6E08f4c7C32D4f71b54bdA02913",
        "Base", "USD Coin", "2"⟩ "e30=" (Json.obj [])
      rfl rfl (by decide) rfl).1 "bad gateway" rfl,
   (verify_transport_failure_statuses "0xr" "base" none "u"
      [("payment-signature", "e30=")] (fun _ => none)
      (Facilitator.mk FetchResult.exn FetchResult.exn)
      ⟨8453, "eip155:8453", "0x833589fCD6eDb6E08f4c7C32D4f71b54bdA02913",
        "Base", "USD Coin", "2"⟩ "e30=" (Json.obj [])
      rfl rfl (by decide) rfl).2 rfl⟩

/-- At a concrete successful challenge, the PAYMENT-REQUIRED header value is
not the base64 JSON whose version key is named protocolVersion: the code
serializes the key x402Version. -/
theorem challenge_blob_counterexample :
    headersGet (Route.GET "0xA0b86991c6218b36c1d19D4a2e9Eb0cE3606eB48" "base"
        (some "300") "u").headers "PAYMENT-REQUIRED" ≠
      some (specProtocolVersionBlob (buildRequirementsWith
        ⟨8453, "eip155:8453", "0x833589fCD6eDb6E08f4c7C32D4f71b54bdA02913",
          "Base", "USD Coin", "2"⟩
        "0xA0b86991c6218b36c1d19D4a2e9Eb0cE3606eB48" (some 300) "u")) := by
  decide

/-- Claim C5 amended: every successful challenge returns HTTP 402 whose body
is the JSON error Payment Required and whose PAYMENT-REQUIRED header carries
the base64 JSON with keys x402Version (value 2), accepts and error. -/
theorem get_challenge_shape (recipient network : String)
    (amountParam : Option String) (requestUrl : String)
    (cfg : NetworkConfig) (a : Int)
    (hrec : isValidRecipient recipient = true)
    (hcfg : NETWORK_CONFIG network = some cfg)
    (hamt : jsParseInt (amountParamStr amountParam) = some a) (ha : 1 ≤ a) :
    Route.GET recipient network amountParam requestUrl =
      ⟨402,
       [("Content-Type", "application/json"),
        ("PAYMENT-REQUIRED",
          btoa (jsonStringify (Json.obj
            [("x402Version", Json.num 2),
             ("accepts", Json.arr
               ((buildRequirementsWith cfg recipient (some a) requestUrl).map reqToJson)),
             ("error", Json.str "Payment Required")])))],
       jsonStringify (Json.obj [("error", Json.str "Payment Required")])⟩ := by
  have hlt : jsNumLt1 (some a) = false := by
    simp [jsNumLt1]
    omega
  simp [Route.GET, hrec, hcfg, hamt, hlt, createPaymentRequiredResponse]

/-- Concrete instantiation of the amended challenge shape on the base network
with amount 300. -/
theorem get_challenge_shape_witness :
    Route.GET "0xA0b86991c6218b36c1d19D4a2e9Eb0cE3606eB48" "base" (some "300") "u" =
      ⟨402,
       [("Content-Type", "application/json"),
        ("PAYMENT-REQUIRED",
          btoa (jsonStringify (Json.obj
            [("x402Version", Json.num 2),
             ("accepts", Json.arr
               ((buildRequirementsWith
                 ⟨8453, "eip155:8453", "0x833589fCD6eDb6E08f4c7C32D4f71b54bdA02913",
                   "Base", "USD Coin", "2"⟩
                 "0xA0b86991c6218b36c1d19D4a2e9Eb0cE3606eB48" (some 300) "u").map
                   reqToJson)),
             ("error", Json.str "Payment Required")])))],
       jsonStringify (Json.obj [("error", Json.str "Payment Required")])⟩ :=
  get_challenge_shape "0xA0b86991c6218b36c1d19D4a2e9Eb0cE3606eB48" "base"
    (some "300") "u"
    ⟨8453, "eip155:8453", "0x833589fCD6eDb6E08f4c7C32D4f71b54bdA02913",
      "Base", "USD Coin", "2"⟩ 300 (by decide) rfl rfl (by norm_num)

/-- At a concrete parameter combination with an invalid recipient, GET returns
400 while POST without a payment header returns the 402 challenge: the two
responses differ, refuting the unrestricted equivalence. -/
theorem post_get_equiv_counterexample :
    (Route.GET "bad" "base" (some "100") "u").status = 400 ∧
    (Route.POST "bad" "base" (some "100") "u" [] (fun _ => none)
        (Facilitator.mk FetchResult.exn FetchResult.exn)).1.status = 402 ∧
    Route.GET "bad" "base" (some "100") "u" ≠
      (Route.POST "bad" "base" (some "100") "u" [] (fun _ => none)
        (Facilitator.mk FetchResult.exn FetchResult.exn)).1 := by
  refine ⟨by decide, by decide, by decide⟩

/-- Claim C6 amended: for parameter combinations that pass the GET validations
(hex recipient, configured network, parsed amount at least 1), a POST with no
payment header present returns exactly the GET response and makes no
facilitator call; when a GET validation fails the two differ, as GET returns
400 while POST still issues the 402 challenge. -/
theorem post_no_header_same_as_get (recipient network : String)
    (amountParam : Option String) (requestUrl : String)
    (reqHeaders : List (String × String)) (penv : ProcessEnv) (facil : Facilitator)
    (cfg : NetworkConfig) (a : Int)
    (hrec : isValidRecipient recipient = true)
    (hcfg : NETWORK_CONFIG network = some cfg)
    (hamt : jsParseInt (amountParamStr amountParam) = some a) (ha : 1 ≤ a)
    (hhdr : paymentHeaderOf reqHeaders = none ∨ paymentHeaderOf reqHeaders = some "") :
    (Route.POST recipient network amountParam requestUrl reqHeaders penv facil).1 =
      Route.GET recipient network amountParam requestUrl ∧
    (Route.POST recipient network amountParam requestUrl reqHeaders penv facil).2 = [] := by
  have hlt : jsNumLt1 (some a) = false := by
    simp [jsNumLt1]
    omega
  rcases hhdr with hhdr | hhdr
  · constructor <;> simp [Route.POST, Route.GET, hrec, hcfg, hamt, hlt, hhdr]
  · constructor <;> simp [Route.POST, Route.GET, hrec, hcfg, hamt, hlt, hhdr]

/-- Concrete instantiation: with no payment header, POST and GET agree on the
base network with amount 100 and the POST trace is empty. -/
theorem post_no_header_same_as_get_witness :
    (Route.POST "0xA0b86991c6218b36c1d19D4a2e9Eb0cE3606eB48" "base" (some "100") "u"
        [("accept", "application/json")] (fun _ => none)
        (Facilitator.mk FetchResult.exn FetchResult.exn)).1 =
      Route.GET "0xA0b86991c6218b36c1d19D4a2e9Eb0cE3606eB48" "base" (some "100") "u" ∧
    (Route.POST "0xA0b86991c6218b36c1d19D4a2e9Eb0cE3606eB48" "base" (some "100") "u"
        [("accept", "application/json")] (fun _ => none)
        (Facilitator.mk FetchResult.exn FetchResult.exn)).2 = [] :=
  post_no_header_same_as_get "0xA0b86991c6218b36c1d19D4a2e9Eb0cE3606eB48" "base"
    (some "100") "u" [("accept", "application/json")] (fun _ => none)
    (Facilitator.mk FetchResult.exn FetchResult.exn)
    ⟨8453, "eip155:8453", "0x833589fCD6eDb6E08f4c7C32D4f71b54bdA02913",
      "Base", "USD Coin", "2"⟩ 100 (by decide) rfl rfl (by norm_num) (Or.inl (by decide))

/-- Evaluation at the failing input for the amount validation: a non-numeric
amount parses to NaN, NaN is not below 1 under the JS comparison, so the GET
handler issues a 402 challenge whose requirement amount is the string "NaN"
instead of failing with 400 Invalid amount. -/
theorem amount_nan_bypasses_validation :
    jsParseInt "abc" = none ∧
    jsNumLt1 none = false ∧
    (Route.GET "0xA0b86991c6218b36c1d19D4a2e9Eb0cE3606eB48" "base" (some "abc")
      "u").status = 402 ∧
    ((buildRequirementsWith
        ⟨8453, "eip155:8453", "0x833589fCD6eDb6E08f4c7C32D4f71b54bdA02913",
          "Base", "USD Coin", "2"⟩
        "0xA0b86991c6218b36c1d19D4a2e9Eb0cE3606eB48" (jsParseInt "abc") "u").map
      PaymentRequirement.amount) = ["NaN"] ∧
    (Route.GET "0xZZ" "base" (some "100") "u").status = 400 := by
  refine ⟨rfl, rfl, by decide, by decide, by decide⟩

/-- At a concrete fully successful redemption, the 200 body is not the
serialization of the four-field object the claim states: the code adds a fixed
message field. -/
theorem success_body_counterexample :
    (Route.POST "0xr" "base" none "u" [("payment-signature", "e30=")] (fun _ => none)
        (Facilitator.mk (FetchResult.ok ⟨true, none⟩)
          (FetchResult.ok ⟨true, none, some "0xabc123"⟩))).1.status = 200 ∧
    (Route.POST "0xr" "base" none "u" [("payment-signature", "e30=")] (fun _ => none)
        (Facilitator.mk (FetchResult.ok ⟨true, none⟩)
          (FetchResult.ok ⟨true, none, some "0xabc123"⟩))).1.body ≠
      jsonStringify (Json.obj
        [("success", Json.bool true),
         ("recipient", Json.str "0xr"),
         ("network", Json.str "base"),
         ("txHash", Json.str "0xabc123")]) := by
  refine ⟨by decide, by decide⟩

/-- Claim C8 amended: when verify answers isValid true and settle answers
success true with transaction t, the handler returns HTTP 200 whose body has
success true, a fixed thank-you message, the request's recipient and network,
and txHash t. -/
theorem success_response (recipient network : String)
    (amountParam : Option String) (requestUrl : String)
    (reqHeaders : List (String × String)) (penv : ProcessEnv) (facil : Facilitator)
    (cfg : NetworkConfig) (h : String) (p : Json) (v : VerifyResult)
    (er : Option String) (t : String)
    (hcfg : NETWORK_CONFIG network = some cfg)
    (hh : paymentHeaderOf reqHeaders = some h) (hne : h ≠ "")
    (hdec : (atob h).bind jsonParse = some p)
    (hv : facil.verify = FetchResult.ok v) (hval : v.isValid = true)
    (hs : facil.settle = FetchResult.ok ⟨true, er, some t⟩) :
    (Route.POST recipient network amountParam requestUrl reqHeaders penv facil).1 =
      jsonResponse 200 (Json.obj
        [("success", Json.bool true),
         ("message", Json.str "Thank you for your donation! ☕"),
         ("recipient", Json.str recipient),
         ("network", Json.str network),
         ("txHash", Json.str t)]) := by
  simp [Route.POST, hcfg, hh, hne, redeemFlow, hdec, hv, hval, hs]

/-- Concrete instantiation: a successful verify and settle with transaction
"0xabc123" yields the 200 body with the message field and txHash "0xabc123". -/
theorem success_response_witness :
    (Route.POST "0xr" "base" none "u" [("payment-signature", "e30=")] (fun _ => none)
        (Facilitator.mk (FetchResult.ok ⟨true, none⟩)
          (FetchResult.ok ⟨true, none, some "0xabc123"⟩))).1 =
      jsonResponse 200 (Json.obj
        [("success", Json.bool true),
         ("message", Json.str "Thank you for your donation! ☕"),
         ("recipient", Json.str "0xr"),
         ("network", Json.str "base"),
         ("txHash", Json.str "0xabc123")]) :=
  success_response "0xr" "base" none "u" [("payment-signature", "e30=")] (fun _ => none)
    (Facilitator.mk (FetchResult.ok ⟨true, none⟩)
      (FetchResult.ok ⟨true, none, some "0xabc123"⟩))
    ⟨8453, "eip155:8453", "0x833589fCD6eDb6E08f4c7C32D4f71b54bdA02913",
      "Base", "USD Coin", "2"⟩ "e30=" (Json.obj []) ⟨true, none⟩ none "0xabc123"
    rfl rfl (by decide) rfl rfl rfl rfl

/-- Every facilitator call the redemption flow records carries exactly the
JSON content-type header. -/
lemma redeemFlow_headers_all (cfg : NetworkConfig) (recipient network : String)
    (amountCents : JsNum) (requestUrl h : String) (penv : ProcessEnv)
    (facil : Facilitator) :
    (((redeemFlow cfg recipient network amountCents requestUrl h penv facil).2.map
        FacCall.headers).all
      (fun hs => decide (hs = [("Content-Type", "application/json")]))) = true := by
  rcases hdec : (atob h).bind jsonParse with _ | p
  · simp [redeemFlow, hdec]
  · rcases hv : facil.verify with _ | t | _ | v
    · simp [redeemFlow, hdec, hv]
    · simp [redeemFlow, hdec, hv]
    · simp [redeemFlow, hdec, hv]
    · rcases hval : v.isValid with _ | _
      · simp [redeemFlow, hdec, hv, hval]
      · rcases hs : facil.settle with _ | t | _ | s
        · simp [redeemFlow, hdec, hv, hval, hs]
        · simp [redeemFlow, hdec, hv, hval, hs]
        · simp [redeemFlow, hdec, hv, hval, hs]
        · rcases hsucc : s.success with _ | _
          · simp [redeemFlow, hdec, hv, hval, hs, hsucc]
          · simp [redeemFlow, hdec, hv, hval, hs, hsucc]

/-- Even when the process environment carries a FACILITATOR_API_KEY, every
facilitator call made by the POST handler carries only the content-type
header — no X-API-KEY is ever attached, because getServerEnv (src/env.ts)
does not return the key and the route's destructuring yields undefined. -/
theorem api_key_never_attached (recipient network : String)
    (amountParam : Option String) (requestUrl : String)
    (reqHeaders : List (String × String)) (penv : ProcessEnv) (facil : Facilitator)
    (k : String) (_hkey : penv "FACILITATOR_API_KEY" = some k) :
    (((Route.POST recipient network amountParam requestUrl reqHeaders penv
          facil).2.map FacCall.headers).all
      (fun hs => decide (hs = [("Content-Type", "application/json")]))) = true := by
  rcases hc : NETWORK_CONFIG network with _ | cfg
  · simp [Route.POST, hc]
  · rcases hh : paymentHeaderOf reqHeaders with _ | h
    · simp [Route.POST, hc, hh]
    · by_cases he : h = ""
      · simp [Route.POST, hc, hh, he]
      · have hall := redeemFlow_headers_all cfg recipient network
          (jsParseInt (amountParamStr amountParam)) requestUrl h penv facil
        simpa [Route.POST, hc, hh, he] using hall

/-- Concrete instantiation: with FACILITATOR_API_KEY set in the environment
and a fully successful redemption (verify and settle both called), every
recorded facilitator call still carries only the content-type header. -/
theorem api_key_never_attached_witness :
    (((Route.POST "0xr" "base" none "u" [("payment-signature", "e30=")]
          (fun s => if s = "FACILITATOR_API_KEY" then some "test-key" else none)
          (Facilitator.mk (FetchResult.ok ⟨true, none⟩)
            (FetchResult.ok ⟨true, none, some "0xabc123"⟩))).2.map
        FacCall.headers).all
      (fun hs => decide (hs = [("Content-Type", "application/json")]))) = true :=
  api_key_never_attached "0xr" "base" none "u" [("payment-signature", "e30=")]
    (fun s => if s = "FACILITATOR_API_KEY" then some "test-key" else none)
    (Facilitator.mk (FetchResult.ok ⟨true, none⟩)
      (FetchResult.ok ⟨true, none, some "0xabc123"⟩)) "test-key" (by decide)

/-- Case-insensitive lookups agree on names with the same lowercase form. -/
lemma headersGet_case_insensitive (hs : List (String × String)) (n1 n2 : String)
    (h : lowerStr n1 = lowerStr n2) : headersGet hs n1 = headersGet hs n2 := by
  simp [headersGet, h]

/-- At a concrete request carrying both payment headers, with the
PAYMENT-SIGNATURE value empty, the X-PAYMENT value is the one selected and the
handler decodes it and reaches the verify call — the PAYMENT-SIGNATURE value
is present but not used, refuting the unconditional priority claim. -/
theorem payment_header_priority_counterexample :
    headersGet [("payment-signature", ""), ("x-payment", "e30=")]
      "PAYMENT-SIGNATURE" = some "" ∧
    headersGet [("payment-signature", ""), ("x-payment", "e30=")]
      "X-PAYMENT" = some "e30=" ∧
    paymentHeaderOf [("payment-signature", ""), ("x-payment", "e30=")] =
      some "e30=" ∧
    callKinds (Route.POST "0xr" "base" none "u"
        [("payment-signature", ""), ("x-payment", "e30=")] (fun _ => none)
        (Facilitator.mk (FetchResult.notOk "x") FetchResult.exn)) =
      [FacCallKind.verify] := by
  refine ⟨by decide, by decide, by decide, by decide⟩

/-- Claim C10 amended: the payment proof is taken from PAYMENT-SIGNATURE or
the legacy X-PAYMENT header, matched case-insensitively, in that priority
order over non-empty values: whenever PAYMENT-SIGNATURE carries a non-empty
value that value is used; X-PAYMENT is consulted when PAYMENT-SIGNATURE is
absent or carries the empty string (which is falsy in JS). -/
theorem payment_header_priority (hs : List (String × String))
    (n1 v1 v w : String) :
    ((headersGet hs "PAYMENT-SIGNATURE" = some v ∧ v ≠ "") →
      paymentHeaderOf hs = some v) ∧
    ((headersGet hs "PAYMENT-SIGNATURE" = none ∨
        headersGet hs "PAYMENT-SIGNATURE" = some "") →
      (headersGet hs "X-PAYMENT" = some w ∧ w ≠ "") →
      paymentHeaderOf hs = some w) ∧
    (lowerStr n1 = "payment-signature" →
      headersGet ((n1, v1) :: hs) "PAYMENT-SIGNATURE" = some v1) := by
  have hps : headersGet hs "payment-signature" = headersGet hs "PAYMENT-SIGNATURE" :=
    headersGet_case_insensitive hs "payment-signature" "PAYMENT-SIGNATURE" rfl
  have hxp : headersGet hs "x-payment" = headersGet hs "X-PAYMENT" :=
    headersGet_case_insensitive hs "x-payment" "X-PAYMENT" rfl
  refine ⟨?_, ?_, ?_⟩
  · rintro ⟨h1, h2⟩
    simp [paymentHeaderOf, jsOrStr, hps, hxp, h1, h2]
  · rintro (h1 | h1) ⟨h2, h3⟩ <;>
      simp [paymentHeaderOf, jsOrStr, hps, hxp, h1, h2, h3]
  · intro hl
    have hlow : lowerStr "PAYMENT-SIGNATURE" = "payment-signature" := rfl
    simp [headersGet, hlow, hl]

/-- Concrete instantiation: with both headers present and non-empty values,
the PAYMENT-SIGNATURE value wins; with it empty, the X-PAYMENT value is used;
and a mixed-case header name matches. -/
theorem payment_header_priority_witness :
    paymentHeaderOf [("Payment-Signature", "ps"), ("X-PAYMENT", "xp")] = some "ps" ∧
    paymentHeaderOf [("payment-signature", ""), ("x-payment", "xp")] = some "xp" ∧
    headersGet [("Payment-Signature", "ps"), ("X-PAYMENT", "xp")]
      "PAYMENT-SIGNATURE" = some "ps" :=
  ⟨(payment_header_priority [("Payment-Signature", "ps"), ("X-PAYMENT", "xp")]
      "Payment-Signature" "ps" "ps" "xp").1 ⟨by decide, by decide⟩,
   (payment_header_priority [("payment-signature", ""), ("x-payment", "xp")]
      "payment-signature" "" "ps" "xp").2.1 (Or.inr (by decide)) ⟨by decide, by decide⟩,
   (payment_header_priority [("X-PAYMENT", "xp")]
      "Payment-Signature" "ps" "ps" "xp").2.2 (by decide)⟩
